import Mathlib

/-!
Shallow embedding of the SystemMonitorApp core (src/main.py): the metrics
probe (get_cpu_usage / get_osu_usage / get_disk_usage), the record store
(setup_db / save_to_db / show_history over the sqlite table records), and
the timer-driven sample loop (start_recording / stop_recording /
update_timer / update_disk_usage / change_tick) of class SystemMonitorApp.

Numeric sample values are modelled as rationals (Python floats and ints
flow unchanged through the loop into REAL columns; no arithmetic is done
on them, only truncating division on byte counts, which is modelled on
Nat). Scheduling (frame.after) is modelled by returning the requested
delay alongside the new state: some d means the callback rescheduled
itself after d milliseconds, none means it did not reschedule.
-/

namespace SystemMonitor

/-- Row label of the live table. The source inserts the literal strings
"ЦПУ" (CPU), "ОЗУ" (memory) and "ПЗУ" (disk) in src/main.py lines 159-163;
the label identity is modelled as an inductive. -/
inductive Device where
  | CPU : Device
  | MEM : Device
  | DISK : Device
deriving DecidableEq, Repr

/-- One cell of the live table: either the placeholder "-" used in the
third column of the CPU row, or a numeric value. -/
inductive Cell where
  | dash : Cell
  | val : ℚ → Cell
deriving DecidableEq, Repr

/-- One row of the live table, as passed to table_tree.insert:
(device label, free-or-value column, total-or-dash column). -/
abbrev Row := Device × Cell × Cell

/-- One persisted sample: the five REAL columns of the records table
(cpu, osu_free, osu_total, disk_free, disk_total), src/main.py lines 69-75. -/
structure Sample where
  cpu : ℚ
  osu_free : ℚ
  osu_total : ℚ
  disk_free : ℚ
  disk_total : ℚ
deriving DecidableEq, Repr

/-- The sqlite-backed record store: the rows of the records table paired
with their AUTOINCREMENT ids, in rowid (= insertion) order, plus the next
id the AUTOINCREMENT sequence will assign. -/
structure RecordStore where
  rows : List (Nat × Sample)
  nextId : Nat
deriving DecidableEq, Repr

/-- The store right after setup_db on a fresh database file: no rows,
AUTOINCREMENT starts assigning ids at 1. -/
def emptyStore : RecordStore := { rows := [], nextId := 1 }

/-- save_to_db (src/main.py lines 78-83): INSERT one row into records;
sqlite assigns the next AUTOINCREMENT id and the sequence advances. -/
def appendStore (st : RecordStore) (x : Sample) : RecordStore :=
  { rows := st.rows ++ [(st.nextId, x)], nextId := st.nextId + 1 }

/-- The SELECT of show_history (src/main.py lines 171-175): all five data
columns of every row; a full scan of the records table yields rows in
rowid order, which for this insert-only table is insertion order. -/
def allSamples (st : RecordStore) : List Sample :=
  st.rows.map (fun p => p.2)

/-- Well-formedness of the AUTOINCREMENT sequence: every id already in the
table is strictly below the next id to be assigned. Holds for the empty
store and is preserved by appendStore. -/
def StoreWF (st : RecordStore) : Prop :=
  ∀ p ∈ st.rows, p.1 < st.nextId

instance (st : RecordStore) : Decidable (StoreWF st) := by
  unfold StoreWF; infer_instance

/-- One mounted partition as seen by get_disk_usage: the result of
psutil.disk_usage on its mountpoint, none when the query raises
PermissionError, otherwise (free bytes, total bytes). -/
structure DPartition where
  usage : Option (Nat × Nat)
deriving DecidableEq, Repr

/-- get_disk_usage (src/main.py lines 131-145): loop over the partitions
accumulating total and free bytes, skipping a partition whose usage query
raises PermissionError via continue, then return the two sums each
floor-divided by 1024. -/
def get_disk_usage (parts : List DPartition) : Nat × Nat :=
  let acc := parts.foldl
    (fun (a : Nat × Nat) p =>
      match p.usage with
      | none => a
      | some u => (a.1 + u.2, a.2 + u.1))
    (0, 0)
  (acc.2 / 1024, acc.1 / 1024)

/-- One injected probe reading for a tick: the values returned by
get_cpu_usage, get_osu_usage and get_disk_usage at that tick. -/
structure Reading where
  cpu : ℚ
  osu : ℚ × ℚ
  disk : ℚ × ℚ
deriving DecidableEq, Repr

/-- The sample row save_to_db builds from a reading
(src/main.py lines 80-82). -/
def sampleOf (r : Reading) : Sample :=
  { cpu := r.cpu, osu_free := r.osu.1, osu_total := r.osu.2,
    disk_free := r.disk.1, disk_total := r.disk.2 }

/-- The in-memory state of one SystemMonitorApp instance: the fields set
in __init__ (src/main.py lines 23-34) that the core loop reads or writes,
plus the live table contents and the store. -/
structure AppState where
  recording : Bool
  elapsed_time : Nat
  tick_interval : Int
  table : List Row
  timer_text : String
  store : RecordStore
deriving DecidableEq, Repr

/-- State after __init__ and setup_db on a fresh database:
tick_interval = 1000, elapsed_time = 0, recording = False, empty live
table, timer label text "00:00". -/
def initState : AppState :=
  { recording := false, elapsed_time := 0, tick_interval := 1000,
    table := [], timer_text := "00:00", store := emptyStore }

/-- Zero-padded width-2 decimal rendering, as Python str.format {:02}
produces for a non-negative int. -/
def pad2 (n : Nat) : String :=
  if n < 10 then "0" ++ Nat.repr n else Nat.repr n

/-- update_timer (src/main.py lines 110-117): if recording, increment
elapsed_time, set the timer label from divmod(elapsed_time, 60) formatted
{:02}:{:02}, and reschedule after 1000 ms; otherwise do nothing and do not
reschedule. -/
def update_timer (s : AppState) : AppState × Option Int :=
  if s.recording then
    ({ s with
        elapsed_time := s.elapsed_time + 1,
        timer_text :=
          pad2 ((s.elapsed_time + 1) / 60) ++ ":" ++
            pad2 ((s.elapsed_time + 1) % 60) },
      some 1000)
  else (s, none)

/-- The deletion loop of update_disk_usage (src/main.py lines 152-153):
every child of table_tree is deleted, leaving the table empty. -/
def clearTable (_t : List Row) : List Row := []

/-- The three insertions of update_disk_usage (src/main.py lines 159-163):
the CPU row (value, dash), the memory row and the disk row (free, total). -/
def mkRows (r : Reading) : List Row :=
  [(Device.CPU, Cell.val r.cpu, Cell.dash),
   (Device.MEM, Cell.val r.osu.1, Cell.val r.osu.2),
   (Device.DISK, Cell.val r.disk.1, Cell.val r.disk.2)]

/-- update_disk_usage (src/main.py lines 147-167) with the probe reading
injected: if not recording, return immediately with no reschedule;
otherwise delete every live-table row, insert the three rows for the
reading, save the sample through save_to_db, and reschedule after
tick_interval milliseconds. -/
def update_disk_usage (r : Reading) (s : AppState) : AppState × Option Int :=
  if s.recording then
    ({ s with
        table := clearTable s.table ++ mkRows r,
        store := appendStore s.store (sampleOf r) },
      some s.tick_interval)
  else (s, none)

/-- stop_recording (src/main.py lines 100-108): clear the recording flag
and reset elapsed_time to 0 (widget repacking is presentation only). -/
def stop_recording (s : AppState) : AppState :=
  { s with recording := false, elapsed_time := 0 }

/-- The state mutation start_recording performs itself (src/main.py line
91): set recording to True. It assigns no other core field; in particular
it does not touch elapsed_time. Widget repacking is presentation only. -/
def startSet (s : AppState) : AppState :=
  { s with recording := true }

/-- start_recording (src/main.py lines 85-98): set recording = True, then
synchronously invoke update_timer (the first clock advance, which also
schedules the next one) and update_disk_usage (the first tick, with
reading r, which also schedules the next one). -/
def start_recording (r : Reading) (s : AppState) : AppState :=
  (update_disk_usage r (update_timer (startSet s)).1).1

/-- simpledialog.askinteger with minvalue 1 and maxvalue 1000 as called by
change_tick (src/main.py lines 199-201): a cancelled prompt yields None,
and the dialog refuses to return an integer outside [minvalue, maxvalue]
(an out-of-range entry is rejected by the dialog and never reaches the
caller, modelled as not returning it). -/
def askinteger (lo hi : Int) (input : Option Int) : Option Int :=
  match input with
  | none => none
  | some n => if lo ≤ n ∧ n ≤ hi then some n else none

/-- change_tick (src/main.py lines 197-203): prompt for an integer in
[1, 1000]; if the result is truthy (not None and nonzero), assign it to
tick_interval, else leave the state unchanged. -/
def change_tick (input : Option Int) (s : AppState) : AppState :=
  match askinteger 1 1000 input with
  | none => s
  | some n => if n = 0 then s else { s with tick_interval := n }

/-- Reachable states of one app instance: the initial state, closed under
the event handlers the UI can fire (start, stop, a scheduled clock
advance, a scheduled tick with any probe reading, and the tick-interval
prompt with any user input). show_history and on_closing do not modify
any core field. -/
inductive Reachable : AppState → Prop where
  | init : Reachable initState
  | start {s} (r : Reading) : Reachable s → Reachable (start_recording r s)
  | stop {s} : Reachable s → Reachable (stop_recording s)
  | timer {s} : Reachable s → Reachable (update_timer s).1
  | tick {s} (r : Reading) : Reachable s → Reachable (update_disk_usage r s).1
  | changeTick {s} (input : Option Int) :
      Reachable s → Reachable (change_tick input s)

end SystemMonitor

namespace SystemMonitor

/-! Helper lemmas: which state fields each event handler leaves unchanged. -/

lemma update_timer_preserve (s : AppState) :
    (update_timer s).1.recording = s.recording ∧
    (update_timer s).1.tick_interval = s.tick_interval ∧
    (update_timer s).1.table = s.table ∧
    (update_timer s).1.store = s.store := by
  unfold update_timer; split <;> exact ⟨rfl, rfl, rfl, rfl⟩

lemma update_disk_usage_preserve (r : Reading) (s : AppState) :
    (update_disk_usage r s).1.recording = s.recording ∧
    (update_disk_usage r s).1.elapsed_time = s.elapsed_time ∧
    (update_disk_usage r s).1.tick_interval = s.tick_interval ∧
    (update_disk_usage r s).1.timer_text = s.timer_text := by
  unfold update_disk_usage; split <;> exact ⟨rfl, rfl, rfl, rfl⟩

lemma askinteger_bounds {lo hi : Int} {input : Option Int} {n : Int}
    (h : askinteger lo hi input = some n) : lo ≤ n ∧ n ≤ hi := by
  unfold askinteger at h
  cases input with
  | none => simp at h
  | some m =>
    by_cases hc : lo ≤ m ∧ m ≤ hi
    · simp [hc] at h; exact h ▸ hc
    · simp [hc] at h

lemma change_tick_preserve (input : Option Int) (s : AppState) :
    (change_tick input s).recording = s.recording ∧
    (change_tick input s).elapsed_time = s.elapsed_time ∧
    (change_tick input s).table = s.table ∧
    (change_tick input s).store = s.store := by
  unfold change_tick
  cases h : askinteger 1 1000 input with
  | none => exact ⟨rfl, rfl, rfl, rfl⟩
  | some n => by_cases h0 : n = 0 <;> simp [h0]

lemma start_recording_state (r : Reading) (s : AppState) :
    (start_recording r s).recording = true ∧
    (start_recording r s).tick_interval = s.tick_interval := by
  unfold start_recording
  constructor
  · rw [(update_disk_usage_preserve r _).1, (update_timer_preserve _).1]; rfl
  · rw [(update_disk_usage_preserve r _).2.2.1, (update_timer_preserve _).2.1]; rfl

/-- Reachability invariant: whenever recording is inactive, the stopwatch
reads 0. update_timer only increments while recording; stop_recording
resets to 0 together with clearing the flag; construction starts at 0. -/
lemma reachable_not_recording_elapsed {s : AppState} (hr : Reachable s) :
    s.recording = false → s.elapsed_time = 0 := by
  induction hr with
  | init => intro _; rfl
  | start r _ _ =>
    intro h
    rw [(start_recording_state r _).1] at h
    exact absurd h (by simp)
  | stop _ _ => intro _; rfl
  | timer _ ih =>
    intro h
    rename_i s' _
    cases hb : s'.recording with
    | false => simp [update_timer, hb]; exact ih hb
    | true => rw [(update_timer_preserve s').1, hb] at h; exact absurd h (by simp)
  | tick r _ ih =>
    intro h
    rename_i s' _
    cases hb : s'.recording with
    | false =>
      rw [(update_disk_usage_preserve r s').2.1]
      exact ih hb
    | true => rw [(update_disk_usage_preserve r s').1, hb] at h; exact absurd h (by simp)
  | changeTick input _ ih =>
    intro h
    rename_i s' _
    rw [(change_tick_preserve input s').1] at h
    rw [(change_tick_preserve input s').2.1]
    exact ih h

end SystemMonitor

namespace SystemMonitor

/-- Closed form of the accumulation loop in get_disk_usage: starting from
accumulator a, the loop adds the total bytes and free bytes of exactly the
partitions whose usage query succeeded. -/
lemma disk_foldl (parts : List DPartition) (a : Nat × Nat) :
    parts.foldl
      (fun (a : Nat × Nat) p =>
        match p.usage with
        | none => a
        | some u => (a.1 + u.2, a.2 + u.1)) a =
    (a.1 + ((parts.filterMap fun p => p.usage).map Prod.snd).sum,
     a.2 + ((parts.filterMap fun p => p.usage).map Prod.fst).sum) := by
  induction parts generalizing a with
  | nil => simp
  | cons p ps ih =>
    cases hu : p.usage with
    | none => simp [List.foldl_cons, List.filterMap_cons, hu, ih]
    | some u =>
      simp [List.foldl_cons, List.filterMap_cons, hu, ih, Nat.add_assoc]

/-- get_disk_usage equals the two per-readable-partition byte sums, each
floor-divided by 1024. -/
lemma get_disk_usage_eq (parts : List DPartition) :
    get_disk_usage parts =
      (((parts.filterMap fun p => p.usage).map Prod.fst).sum / 1024,
       ((parts.filterMap fun p => p.usage).map Prod.snd).sum / 1024) := by
  unfold get_disk_usage
  rw [disk_foldl]
  simp

/-- C1: with the probe reading cpu=10.5, mem=(1024,2048), disk=(512,1024)
injected, one tick while recording is active leaves the live table holding
exactly the three rows (CPU, 10.5, -), (MEM, 1024, 2048), (DISK, 512, 1024)
and appends exactly one row with those five values to the store. -/
theorem tick_renders_and_appends (s : AppState) (h : s.recording = true) :
    (update_disk_usage ⟨10.5, (1024, 2048), (512, 1024)⟩ s).1.table =
      [(Device.CPU, Cell.val 10.5, Cell.dash),
       (Device.MEM, Cell.val 1024, Cell.val 2048),
       (Device.DISK, Cell.val 512, Cell.val 1024)] ∧
    (update_disk_usage ⟨10.5, (1024, 2048), (512, 1024)⟩ s).1.store.rows =
      s.store.rows ++ [(s.store.nextId, ⟨10.5, 1024, 2048, 512, 1024⟩)] := by
  constructor <;>
    simp [update_disk_usage, h, clearTable, mkRows, appendStore, sampleOf]

/-- Witness for C1 at the state reached by pressing start on a fresh app. -/
theorem tick_renders_and_appends_witness :
    (startSet initState).recording = true ∧
    ((update_disk_usage ⟨10.5, (1024, 2048), (512, 1024)⟩
        (startSet initState)).1.table =
      [(Device.CPU, Cell.val 10.5, Cell.dash),
       (Device.MEM, Cell.val 1024, Cell.val 2048),
       (Device.DISK, Cell.val 512, Cell.val 1024)] ∧
     (update_disk_usage ⟨10.5, (1024, 2048), (512, 1024)⟩
        (startSet initState)).1.store.rows =
      (startSet initState).store.rows ++
        [((startSet initState).store.nextId, ⟨10.5, 1024, 2048, 512, 1024⟩)]) :=
  ⟨rfl, tick_renders_and_appends (startSet initState) rfl⟩

/-- C2: on a store whose AUTOINCREMENT sequence is well-formed, append
followed by all() returns the old samples followed by the appended one
(insertion order, oldest first, appended sample last); the new row gets
id nextId, strictly greater than every id already present; and
well-formedness is preserved. -/
theorem append_then_all (st : RecordStore) (x : Sample) (hwf : StoreWF st) :
    allSamples (appendStore st x) = allSamples st ++ [x] ∧
    (appendStore st x).rows.getLast? = some (st.nextId, x) ∧
    (∀ p ∈ st.rows, p.1 < st.nextId) ∧
    StoreWF (appendStore st x) := by
  refine ⟨?_, ?_, hwf, ?_⟩
  · simp [allSamples, appendStore]
  · simp [appendStore]
  · intro p hp
    simp only [appendStore, List.mem_append, List.mem_singleton] at hp
    rcases hp with hp | hp
    · exact Nat.lt_succ_of_lt (hwf p hp)
    · subst hp; exact Nat.lt_succ_self _

/-- Witness for C2 on a one-row store. -/
theorem append_then_all_witness :
    StoreWF (appendStore emptyStore ⟨10.5, 1024, 2048, 512, 1024⟩) ∧
    (allSamples (appendStore (appendStore emptyStore ⟨10.5, 1024, 2048, 512, 1024⟩)
        ⟨20, 1, 2, 3, 4⟩) =
      allSamples (appendStore emptyStore ⟨10.5, 1024, 2048, 512, 1024⟩) ++
        [⟨20, 1, 2, 3, 4⟩] ∧
     (appendStore (appendStore emptyStore ⟨10.5, 1024, 2048, 512, 1024⟩)
        ⟨20, 1, 2, 3, 4⟩).rows.getLast? =
      some ((appendStore emptyStore ⟨10.5, 1024, 2048, 512, 1024⟩).nextId,
        ⟨20, 1, 2, 3, 4⟩) ∧
     (∀ p ∈ (appendStore emptyStore ⟨10.5, 1024, 2048, 512, 1024⟩).rows,
        p.1 < (appendStore emptyStore ⟨10.5, 1024, 2048, 512, 1024⟩).nextId) ∧
     StoreWF (appendStore (appendStore emptyStore ⟨10.5, 1024, 2048, 512, 1024⟩)
        ⟨20, 1, 2, 3, 4⟩)) :=
  ⟨by decide, append_then_all _ _ (by decide)⟩

/-- C4: read_disk returns the sum of free bytes and the sum of total bytes
over exactly the partitions whose usage query succeeds, each sum converted
to kibibytes by floor division; a partition raising a permission error
contributes nothing to either sum; with readable P1 (free=512Ki,
total=1024Ki) and unreadable P2 it returns exactly (512, 1024). -/
theorem read_disk_aggregation :
    (∀ parts : List DPartition,
      get_disk_usage parts =
        (((parts.filterMap fun p => p.usage).map Prod.fst).sum / 1024,
         ((parts.filterMap fun p => p.usage).map Prod.snd).sum / 1024)) ∧
    (∀ (l1 l2 : List DPartition) (p : DPartition), p.usage = none →
      get_disk_usage (l1 ++ p :: l2) = get_disk_usage (l1 ++ l2)) ∧
    get_disk_usage [⟨some (524288, 1048576)⟩, ⟨none⟩] = (512, 1024) := by
  refine ⟨get_disk_usage_eq, ?_, by decide⟩
  intro l1 l2 p hp
  simp [get_disk_usage_eq, List.filterMap_append, List.filterMap_cons, hp]

/-- Witness for C4: an unreadable partition in the middle of the list is
skipped entirely. -/
theorem read_disk_aggregation_witness :
    get_disk_usage [⟨some (524288, 1048576)⟩, ⟨none⟩] =
      get_disk_usage [⟨some (524288, 1048576)⟩] :=
  read_disk_aggregation.2.1 [⟨some (524288, 1048576)⟩] [] ⟨none⟩ rfl

end SystemMonitor

namespace SystemMonitor

/-- Rendering prescribed by the spec for the clock: minutes computed as
elapsed_seconds // 60 with no hour rollover, both fields zero-padded to
two digits, separated by a colon. Stated from the spec wording, to be
compared with what update_timer writes into the timer label. -/
def specMMSS (n : Nat) : String :=
  pad2 (n / 60) ++ ":" ++ pad2 (n % 60)

/-- C5: one clock advance while Running increments elapsed_time by 1,
renders it in the spec MM:SS format, and reschedules after 1000 ms; the
format sends 1 to 00:01, 61 to 01:01 and 3661 to 61:01. -/
theorem clock_advance_spec (s : AppState) (h : s.recording = true) :
    (update_timer s).1.elapsed_time = s.elapsed_time + 1 ∧
    (update_timer s).1.timer_text = specMMSS (s.elapsed_time + 1) ∧
    (update_timer s).2 = some 1000 ∧
    specMMSS 1 = "00:01" ∧ specMMSS 61 = "01:01" ∧ specMMSS 3661 = "61:01" := by
  refine ⟨?_, ?_, ?_, by decide, by decide, by decide⟩ <;>
    simp [update_timer, h, specMMSS]

/-- Witness for C5: the first clock advance after starting a fresh app
shows 00:01. -/
theorem clock_advance_spec_witness :
    (startSet initState).recording = true ∧
    ((update_timer (startSet initState)).1.elapsed_time =
        (startSet initState).elapsed_time + 1 ∧
     (update_timer (startSet initState)).1.timer_text =
        specMMSS ((startSet initState).elapsed_time + 1) ∧
     (update_timer (startSet initState)).2 = some 1000 ∧
     specMMSS 1 = "00:01" ∧ specMMSS 61 = "01:01" ∧ specMMSS 3661 = "61:01") :=
  ⟨rfl, clock_advance_spec (startSet initState) rfl⟩

/-- C6: an interval change with a dialog result in [1, 1000] updates only
tick_interval, and the next scheduled tick (while recording) uses the new
delay; a dialog input outside the range, or a cancelled prompt, leaves the
state entirely unchanged. -/
theorem set_tick_interval_spec :
    (∀ (n : Int) (s : AppState), 1 ≤ n → n ≤ 1000 →
      change_tick (some n) s = { s with tick_interval := n } ∧
      ∀ r : Reading, s.recording = true →
        (update_disk_usage r (change_tick (some n) s)).2 = some n) ∧
    (∀ (n : Int) (s : AppState), n < 1 ∨ 1000 < n →
      change_tick (some n) s = s) ∧
    (∀ s : AppState, change_tick none s = s) := by
  refine ⟨?_, ?_, fun s => rfl⟩
  · intro n s h1 h2
    have hn : ¬ n = 0 := by omega
    have hset : change_tick (some n) s = { s with tick_interval := n } := by
      simp [change_tick, askinteger, h1, h2, hn]
    refine ⟨hset, ?_⟩
    intro r hr
    rw [hset]
    simp [update_disk_usage, hr]
  · intro n s h
    have hc : ¬ ((1 : Int) ≤ n ∧ n ≤ 1000) := by omega
    simp [change_tick, askinteger, hc]

/-- Witness for C6: 500 is applied and used for the next tick; 1001 and a
cancelled prompt are not applied. -/
theorem set_tick_interval_spec_witness :
    (change_tick (some 500) (startSet initState) =
        { startSet initState with tick_interval := 500 } ∧
     (update_disk_usage ⟨0, (0, 0), (0, 0)⟩
        (change_tick (some 500) (startSet initState))).2 = some 500) ∧
    change_tick (some 1001) initState = initState ∧
    change_tick none initState = initState :=
  ⟨⟨(set_tick_interval_spec.1 500 (startSet initState) (by decide) (by decide)).1,
    (set_tick_interval_spec.1 500 (startSet initState) (by decide)
      (by decide)).2 ⟨0, (0, 0), (0, 0)⟩ rfl⟩,
   set_tick_interval_spec.2.1 1001 initState (Or.inr (by decide)),
   set_tick_interval_spec.2.2 initState⟩

/-- C7: a tick fired while recording is inactive does nothing and does not
reschedule itself; in particular every tick fired after stop_recording
self-terminates, so no tick work recurs after stop. -/
theorem tick_idle_no_reschedule (r : Reading) (s : AppState)
    (h : s.recording = false) :
    update_disk_usage r s = (s, none) ∧
    ∀ s' : AppState,
      update_disk_usage r (stop_recording s') = (stop_recording s', none) := by
  constructor
  · simp [update_disk_usage, h]
  · intro s'
    simp [update_disk_usage, stop_recording]

/-- Witness for C7 at the idle initial state. -/
theorem tick_idle_no_reschedule_witness :
    update_disk_usage ⟨10.5, (1024, 2048), (512, 1024)⟩ initState =
        (initState, none) ∧
    ∀ s' : AppState,
      update_disk_usage ⟨10.5, (1024, 2048), (512, 1024)⟩ (stop_recording s') =
        (stop_recording s', none) :=
  tick_idle_no_reschedule ⟨10.5, (1024, 2048), (512, 1024)⟩ initState rfl

/-- C8: in every state, stop_recording clears the recording flag and
resets elapsed_time to 0; after stop then the state-setting part of start,
elapsed_time is still 0, and the first subsequent clock advance is what
moves it to 1. -/
theorem stop_then_start_elapsed_zero (s : AppState) :
    (stop_recording s).recording = false ∧
    (stop_recording s).elapsed_time = 0 ∧
    (startSet (stop_recording s)).elapsed_time = 0 ∧
    (update_timer (startSet (stop_recording s))).1.elapsed_time = 1 := by
  refine ⟨rfl, rfl, rfl, ?_⟩
  simp [update_timer, startSet, stop_recording]

/-- C10: every tick taken while recording replaces the whole live table:
all previous rows are deleted and exactly the three rows of the current
reading remain, whatever the table held before. -/
theorem tick_table_exactly_three (r : Reading) (s : AppState)
    (h : s.recording = true) :
    (update_disk_usage r s).1.table = mkRows r ∧
    (update_disk_usage r s).1.table.length = 3 := by
  have ht : (update_disk_usage r s).1.table = mkRows r := by
    simp [update_disk_usage, h, clearTable]
  exact ⟨ht, by rw [ht]; rfl⟩

/-- Witness for C10 at a state whose table already holds the three rows of
an earlier tick. -/
theorem tick_table_exactly_three_witness :
    (update_disk_usage ⟨0, (0, 0), (0, 0)⟩ (startSet initState)).1.recording
        = true ∧
    ((update_disk_usage ⟨10.5, (1024, 2048), (512, 1024)⟩
        (update_disk_usage ⟨0, (0, 0), (0, 0)⟩ (startSet initState)).1).1.table =
      mkRows ⟨10.5, (1024, 2048), (512, 1024)⟩ ∧
     (update_disk_usage ⟨10.5, (1024, 2048), (512, 1024)⟩
        (update_disk_usage ⟨0, (0, 0), (0, 0)⟩ (startSet initState)).1).1.table.length
      = 3) :=
  ⟨rfl, tick_table_exactly_three ⟨10.5, (1024, 2048), (512, 1024)⟩ _ rfl⟩

end SystemMonitor

namespace SystemMonitor

/-- C3 counterexample: in the concrete Idle state with elapsed_time = 5,
start_recording may be invoked (recording is False) yet no part of the
call sets elapsed_time to 0: the flag-setting portion leaves it at 5, and
the whole call, whose synchronous first clock advance increments it,
leaves it at 6. The claimed reset inside start() does not happen. -/
theorem start_resets_elapsed_cex :
    ({ initState with elapsed_time := 5 } : AppState).recording = false ∧
    (startSet { initState with elapsed_time := 5 }).elapsed_time = 5 ∧
    (startSet { initState with elapsed_time := 5 }).elapsed_time ≠ 0 ∧
    (start_recording ⟨10.5, (1024, 2048), (512, 1024)⟩
        { initState with elapsed_time := 5 }).elapsed_time = 6 ∧
    (start_recording ⟨10.5, (1024, 2048), (512, 1024)⟩
        { initState with elapsed_time := 5 }).elapsed_time ≠ 0 := by
  refine ⟨rfl, rfl, by decide, ?_, ?_⟩ <;>
    simp [start_recording, startSet, update_timer, update_disk_usage,
      initState]

/-- C3 amended: start_recording sets recording to True but does not itself
modify elapsed_time; elapsed_time is 0 when start fires only because
stop_recording (and construction) reset it, which holds in every reachable
state where recording is inactive, and the first clock advance invoked
synchronously by start_recording then moves it from 0 to 1. -/
theorem start_transition_amended (s : AppState) (hr : Reachable s)
    (h : s.recording = false) :
    (startSet s).recording = true ∧
    (startSet s).elapsed_time = s.elapsed_time ∧
    (startSet s).elapsed_time = 0 ∧
    (update_timer (startSet s)).1.elapsed_time = 1 := by
  have he : s.elapsed_time = 0 := reachable_not_recording_elapsed hr h
  refine ⟨rfl, rfl, he, ?_⟩
  simp [update_timer, startSet, he]

/-- Witness for the amended C3 at the initial state. -/
theorem start_transition_amended_witness :
    initState.recording = false ∧
    ((startSet initState).recording = true ∧
     (startSet initState).elapsed_time = initState.elapsed_time ∧
     (startSet initState).elapsed_time = 0 ∧
     (update_timer (startSet initState)).1.elapsed_time = 1) :=
  ⟨rfl, start_transition_amended initState Reachable.init rfl⟩

/-- C9: in every reachable state the tick interval lies in [1, 1000]: it
is 1000 at construction, no event other than the interval prompt writes
it, and the prompt only ever applies a dialog result inside the range. -/
theorem tick_interval_in_range (s : AppState) (hr : Reachable s) :
    1 ≤ s.tick_interval ∧ s.tick_interval ≤ 1000 := by
  induction hr with
  | init => exact ⟨by decide, by decide⟩
  | start r _ ih =>
    rename_i s' _
    rw [(start_recording_state r s').2]
    exact ih
  | stop _ ih => exact ih
  | timer _ ih =>
    rename_i s' _
    rw [(update_timer_preserve s').2.1]
    exact ih
  | tick r _ ih =>
    rename_i s' _
    rw [(update_disk_usage_preserve r s').2.2.1]
    exact ih
  | changeTick input _ ih =>
    rename_i s' _
    cases hA : askinteger 1 1000 input with
    | none => simpa [change_tick, hA] using ih
    | some n =>
      have hb := askinteger_bounds hA
      by_cases h0 : n = 0
      · simpa [change_tick, hA, h0] using ih
      · simpa [change_tick, hA, h0] using hb

/-- Witness for C9 at the initial state. -/
theorem tick_interval_in_range_witness :
    1 ≤ initState.tick_interval ∧ initState.tick_interval ≤ 1000 :=
  tick_interval_in_range initState Reachable.init

end SystemMonitor
